import Mathlib

/-!
Shallow embedding of the MicroSaaS CRM front-end
(src/frontend/src/lib/crm.ts and src/frontend/src/pages/{Kanban,Contacts,Calendar}.tsx).

Each page owns a local collection mirrored from a server collection and
performs fetch / filter / optimistic-mutate over it.  Asynchronous remote
calls are modelled by an explicit outcome argument (`Bool` for
resolve/reject, `Except` when the payload matters); React `setState` on an
immutable array is modelled by returning the new collection.  Every handler
is translated as a function from the pre-state (and the remote outcome) to
the post-state, which is the honest sequential semantics under the
single-in-flight assumption the code operates under.
-/

namespace CRM

/-- Pipeline stage of a deal: the closed `column` enumeration of `Deal` in crm.ts. -/
inductive Column where
  | novo | qualificacao | proposta | fechamento | ganho | perdido
deriving DecidableEq

/-- Contact `stage` enumeration from crm.ts. -/
inductive Stage where
  | lead | client
deriving DecidableEq

/-- Contact `heat` enumeration from crm.ts. -/
inductive Heat where
  | hot | warm | cold
deriving DecidableEq

/-- Contact `await_status` enumeration from crm.ts. -/
inductive AwaitStatus where
  | none | awaiting_client | awaiting_us | awaiting_payment
deriving DecidableEq

/-- Obligation `status` enumeration from crm.ts. -/
inductive OStatus where
  | open | done
deriving DecidableEq

/-- Deal record (crm.ts `Deal`).  JS numbers for `id`/`contact_id` are Nat ids,
`value` is an Int; optional fields are `Option`. -/
structure Deal where
  id : Nat
  contact_id : Nat
  title : String
  value : Int
  column : Column
  priority : String
  due_date : Option String := Option.none
  tags : Option (List String) := Option.none
  created_at : String := ""
deriving DecidableEq

/-- Contact record (crm.ts `Contact`). -/
structure Contact where
  id : Nat
  owner_user_id : Nat := 0
  name : String
  phone : Option String := Option.none
  email : Option String := Option.none
  stage : Stage
  heat : Heat
  await_status : AwaitStatus
  is_real : Bool
  notes : Option String := Option.none
  created_at : String := ""
  updated_at : String := ""
deriving DecidableEq

/-- Obligation record (crm.ts `Obligation`).  `due_date` stays a String as in
the source; its temporal value is given by a date-parse valuation passed to
the bucketing functions (modelling `new Date(s).getTime()`). -/
structure Obligation where
  id : Nat
  owner_user_id : Nat := 0
  title : String
  description : Option String := Option.none
  due_date : String
  status : OStatus
  contact_id : Option Nat := Option.none
  created_at : String := ""
deriving DecidableEq

/-! ### Optimistic mutations

Each handler returns the final collection together with a Bool recording
whether a remote request was issued.  `remoteOk` is the outcome of that
request (`true` = resolved, `false` = rejected); when no request is issued
the flag is irrelevant. -/

/-- Optimistic step of Kanban.tsx `move`:
`arr.map (x => x.id === d.id ? { ...x, column: to } : x)`. -/
def moveOptimistic (items : List Deal) (id : Nat) (dest : Column) : List Deal :=
  items.map fun x => if x.id == id then { x with column := dest } else x

/-- Kanban.tsx `move(d, to)`: early-return when the column is unchanged,
otherwise snapshot, optimistic column update, remote PATCH, rollback to the
snapshot on rejection. -/
def move (items : List Deal) (d : Deal) (dest : Column) (remoteOk : Bool) :
    List Deal × Bool :=
  if d.column == dest then (items, false)
  else
    let prev := items
    let optimistic := moveOptimistic items d.id dest
    if remoteOk then (optimistic, true) else (prev, true)

/-- Optimistic step of Calendar.tsx `toggleDone`:
`rs.map (x => x.id === o.id ? { ...x, status: nextStatus } : x)`. -/
def toggleDoneOptimistic (rows : List Obligation) (id : Nat) (nextStatus : OStatus) :
    List Obligation :=
  rows.map fun x => if x.id == id then { x with status := nextStatus } else x

/-- Calendar.tsx `toggleDone(o)`: snapshot, optimistic status flip, remote
PATCH, rollback on rejection. -/
def toggleDone (rows : List Obligation) (o : Obligation) (remoteOk : Bool) :
    List Obligation × Bool :=
  let prev := rows
  let nextStatus := if o.status == OStatus.done then OStatus.open else OStatus.done
  let optimistic := toggleDoneOptimistic rows o.id nextStatus
  if remoteOk then (optimistic, true) else (prev, true)

/-- Optimistic step of Contacts.tsx `toggleReal`:
`rs.map (r => r.id === id ? { ...r, is_real: !current } : r)`. -/
def toggleRealOptimistic (rows : List Contact) (id : Nat) (current : Bool) :
    List Contact :=
  rows.map fun r => if r.id == id then { r with is_real := !current } else r

/-- Contacts.tsx `toggleReal(id, current)`: snapshot, optimistic boolean flip,
remote PATCH, rollback on rejection. -/
def toggleReal (rows : List Contact) (id : Nat) (current : Bool) (remoteOk : Bool) :
    List Contact × Bool :=
  let prev := rows
  let optimistic := toggleRealOptimistic rows id current
  if remoteOk then (optimistic, true) else (prev, true)

/-- Kanban.tsx `remove(id)`: confirm dialog, snapshot, optimistic
`arr.filter (x => x.id !== id)`, remote DELETE, rollback on rejection. -/
def removeDeal (items : List Deal) (id : Nat) (confirmed remoteOk : Bool) :
    List Deal × Bool :=
  if !confirmed then (items, false)
  else
    let prev := items
    let optimistic := items.filter fun x => x.id != id
    if remoteOk then (optimistic, true) else (prev, true)

/-- Contacts.tsx `remove(id)`: same shape as the Kanban removal. -/
def removeContact (rows : List Contact) (id : Nat) (confirmed remoteOk : Bool) :
    List Contact × Bool :=
  if !confirmed then (rows, false)
  else
    let prev := rows
    let optimistic := rows.filter fun x => x.id != id
    if remoteOk then (optimistic, true) else (prev, true)

/-- Calendar.tsx `remove(id)`: same shape as the Kanban removal. -/
def removeObligation (rows : List Obligation) (id : Nat) (confirmed remoteOk : Bool) :
    List Obligation × Bool :=
  if !confirmed then (rows, false)
  else
    let prev := rows
    let optimistic := rows.filter fun x => x.id != id
    if remoteOk then (optimistic, true) else (prev, true)

/-! ### Search / filter projections -/

/-- JS `hay.includes(s)`: substring containment on the underlying character
lists. -/
def jsIncludes (hay s : String) : Bool :=
  decide (s.data <:+: hay.data)

/-- Normalised query, `q.trim().toLowerCase()` (the `s` local of each page). -/
def normQuery (q : String) : String :=
  q.trim.toLower

/-- Searchable text of a deal, Kanban.tsx line 45:
the template literal is title, a space, then `tags?.join(" ") || ""`. -/
def dealHay (d : Deal) : String :=
  d.title ++ " " ++ (match d.tags with
    | Option.some ts => String.intercalate " " ts
    | Option.none => "")

/-- Keep-predicate of the Kanban filter loop: an empty normalised query keeps
everything, otherwise the lower-cased haystack must contain it. -/
def keepDeal (q : String) (d : Deal) : Bool :=
  normQuery q == "" || jsIncludes (dealHay d).toLower (normQuery q)

/-- Kanban.tsx `filteredByCol` represented as a map from columns to lists;
the fold mirrors the for-loop pushing each kept deal onto its column. -/
def colPush (m : Column → List Deal) (c : Column) (d : Deal) : Column → List Deal :=
  fun c' => if c' = c then m c' ++ [d] else m c'

/-- Kanban.tsx `filteredByCol`: iterate over `items`, skip deals that fail
the search, push the rest onto their column's list. -/
def filteredByCol (q : String) (items : List Deal) : Column → List Deal :=
  items.foldl (fun m d => if keepDeal q d then colPush m d.column d else m)
    (fun _ => [])

/-- Searchable text of a contact, Contacts.tsx line 63:
name, space, `email || ""`, space, `phone || ""`. -/
def contactHay (c : Contact) : String :=
  c.name ++ " " ++ (c.email.getD "") ++ " " ++ (c.phone.getD "")

/-- Contacts.tsx filter predicate (lines 61-70): search text, then the three
enumeration dropdowns (empty string = no filtering, modelled as `Option.none`)
and the only-real checkbox. -/
def keepContact (q : String) (stage : Option Stage) (heat : Option Heat)
    (awaiting : Option AwaitStatus) (onlyReal : Bool) (c : Contact) : Bool :=
  (normQuery q == "" || jsIncludes (contactHay c).toLower (normQuery q)) &&
  (match stage with | Option.some st => c.stage == st | Option.none => true) &&
  (match heat with | Option.some h => c.heat == h | Option.none => true) &&
  (match awaiting with | Option.some a => c.await_status == a | Option.none => true) &&
  (!onlyReal || c.is_real)

/-- Contacts.tsx `filtered`: `rows.filter` with the predicate above. -/
def contactsFiltered (q : String) (stage : Option Stage) (heat : Option Heat)
    (awaiting : Option AwaitStatus) (onlyReal : Bool) (rows : List Contact) :
    List Contact :=
  rows.filter (keepContact q stage heat awaiting onlyReal)

/-- Searchable text of an obligation, Calendar.tsx line 48:
title, space, `description || ""`. -/
def obligationHay (o : Obligation) : String :=
  o.title ++ " " ++ (o.description.getD "")

/-- Calendar.tsx filter predicate (lines 46-50). -/
def keepObligation (q : String) (o : Obligation) : Bool :=
  normQuery q == "" || jsIncludes (obligationHay o).toLower (normQuery q)

/-- Calendar.tsx `filtered`: `rows.filter` with the search predicate. -/
def obligationsFiltered (q : String) (rows : List Obligation) : List Obligation :=
  rows.filter (keepObligation q)

/-! ### Calendar buckets

JS date values are abstracted by a valuation `dateVal : String → Int`
standing for `s ↦ +new Date(s)`, and `now : Int` for `+new Date()` at
bucketing time.  The `Section` component sorts each bucket with the stable
comparator `(a, b) => +new Date(a.due_date) - +new Date(b.due_date)`,
modelled by a stable merge sort on the same key. -/

/-- Calendar.tsx `overdue` (line 53): open obligations strictly past due. -/
def overdue (dateVal : String → Int) (now : Int) (fil : List Obligation) :
    List Obligation :=
  fil.filter fun o => o.status == OStatus.open && decide (dateVal o.due_date < now)

/-- Calendar.tsx `upcoming` (line 54): open obligations due at or after now. -/
def upcoming (dateVal : String → Int) (now : Int) (fil : List Obligation) :
    List Obligation :=
  fil.filter fun o => o.status == OStatus.open && decide (now ≤ dateVal o.due_date)

/-- Calendar.tsx `done` bucket (line 55). -/
def doneBucket (fil : List Obligation) : List Obligation :=
  fil.filter fun o => o.status == OStatus.done

/-- Ascending-by-due comparator used by `Section`'s sort. -/
def dueLe (dateVal : String → Int) (a b : Obligation) : Bool :=
  decide (dateVal a.due_date ≤ dateVal b.due_date)

/-- Calendar.tsx `Section` render order: the bucket sorted ascending by due
timestamp (JS `Array.prototype.sort` is stable, as is `List.mergeSort`). -/
def sectionOrder (dateVal : String → Int) (data : List Obligation) :
    List Obligation :=
  data.mergeSort (dueLe dateVal)

/-! ### HTTP helper (crm.ts `http`) -/

/-- Outcome of the two body readers of a `fetch` response: `bodyText` is
`res.text()` (`Option.none` = the promise rejected, i.e. unreadable body) and
`jsonBody` is `res.json()` (`Option.none` = the body failed to parse). -/
structure HttpResponse (α : Type) where
  status : Nat
  bodyText : Option String
  jsonBody : Option α

/-- Failure surfaced by `http`: either the thrown `Error(message)` or the
propagated rejection of `res.json()`. -/
inductive HttpFailure where
  | errMsg (msg : String)
  | jsonReject
deriving DecidableEq

/-- Fetch `Response.ok`: status in the inclusive range 200-299. -/
def resOk (status : Nat) : Bool :=
  decide (200 ≤ status ∧ status ≤ 299)

/-- Body-handling core of crm.ts `http` (lines 35-39): on a non-ok status,
read the body text (falling back to the empty string if unreadable) and throw
an Error carrying `text || "HTTP <status>"`; on an ok status return the
parsed JSON body. -/
def http {α : Type} (r : HttpResponse α) : Except HttpFailure α :=
  if resOk r.status then
    match r.jsonBody with
    | Option.some v => Except.ok v
    | Option.none => Except.error HttpFailure.jsonReject
  else
    let text := r.bodyText.getD ""
    Except.error (HttpFailure.errMsg
      (if text == "" then "HTTP " ++ toString r.status else text))

/-- Headers attached by crm.ts `authHeaders` (lines 7-10):
`token ? { Authorization: ... } : {}` builds the Authorization header only
when the stored token is truthy, so both a missing token (`null`, here
`Option.none`) and a stored empty string produce no header. -/
def authHeaders (token : Option String) : List (String × String) :=
  match token with
  | Option.some t =>
      if t == "" then [] else [("Authorization", "Bearer " ++ t)]
  | Option.none => []

/-- Header object built by crm.ts `http` (lines 29-33): Content-Type, then
the auth headers, then any headers from `init` (later spreads override). -/
def buildHeaders (token : Option String) (initHeaders : List (String × String)) :
    List (String × String) :=
  [("Content-Type", "application/json")] ++ authHeaders token ++ initHeaders

/-- Value a key ends up with under JS object-spread semantics: the last
entry for the key wins. -/
def headerValue (hs : List (String × String)) (k : String) : Option String :=
  (hs.reverse.find? fun kv => kv.fst == k).map Prod.snd

/-! ### Page `refresh` handlers (load) -/

/-- Shared shape of the three `refresh` handlers: `setLoading(true)`, await
the list call, on resolve replace the collection wholesale, on reject set the
error banner to `e?.message || fallback` (the rejection payload is
`Option.none` when the thrown value has no usable message), and in all cases
`finally` clears the loading flag.  The result is
(collection, loading, error). -/
def refreshWith {α : Type} (fallback : String) (items : List α)
    (error : Option String) (resp : Except (Option String) (List α)) :
    List α × Bool × Option String :=
  match resp with
  | Except.ok ds => (ds, false, error)
  | Except.error e =>
      let msg := e.getD ""
      (items, false, Option.some (if msg == "" then fallback else msg))

/-- Kanban.tsx `refresh` (lines 24-34). -/
def refreshDeals (items : List Deal) (error : Option String)
    (resp : Except (Option String) (List Deal)) : List Deal × Bool × Option String :=
  refreshWith "Falha ao carregar pipeline" items error resp

/-- Contacts.tsx `refresh` (lines 45-55). -/
def refreshContacts (rows : List Contact) (error : Option String)
    (resp : Except (Option String) (List Contact)) :
    List Contact × Bool × Option String :=
  refreshWith "Falha ao carregar contatos" rows error resp

/-- Calendar.tsx `refresh` (lines 30-40). -/
def refreshObligations (rows : List Obligation) (error : Option String)
    (resp : Except (Option String) (List Obligation)) :
    List Obligation × Bool × Option String :=
  refreshWith "Falha ao carregar obrigações" rows error resp

/-! ### `quickAdd` handlers (create)

The prompt dialogs return `Option String` (`Option.none` = cancelled); a JS
falsy check also treats the empty string as cancellation.  The remote create
resolves with the server-returned entity or rejects; a rejection propagates
unhandled (second component `true`) and the collection is only touched after
a resolution. -/

/-- Kanban.tsx `quickAdd` (lines 60-74): guard on the title prompt, await
`createDeal`, prepend the server-returned deal.  The numeric parse of the
value prompt does not affect the collection logic. -/
def quickAddDeal (items : List Deal) (title : Option String)
    (resp : Except Unit Deal) : List Deal × Bool :=
  match title with
  | Option.none => (items, false)
  | Option.some t =>
    if t == "" then (items, false)
    else match resp with
      | Except.ok novo => (novo :: items, false)
      | Except.error _ => (items, true)

/-- Contacts.tsx `quickAdd` (lines 84-95): same shape for contacts. -/
def quickAddContact (rows : List Contact) (name : Option String)
    (resp : Except Unit Contact) : List Contact × Bool :=
  match name with
  | Option.none => (rows, false)
  | Option.some n =>
    if n == "" then (rows, false)
    else match resp with
      | Except.ok newC => (newC :: rows, false)
      | Except.error _ => (rows, true)

/-! ### Frame relations for the optimistic field updates -/

/-- Frame condition of the optimistic column update: every field other than
`column` is preserved, a non-matching identity leaves the deal untouched, and
the matching identity receives exactly the new column. -/
def dealFrame (id : Nat) (dest : Column) (x x' : Deal) : Prop :=
  x'.id = x.id ∧ x'.contact_id = x.contact_id ∧ x'.title = x.title ∧
  x'.value = x.value ∧ x'.priority = x.priority ∧ x'.due_date = x.due_date ∧
  x'.tags = x.tags ∧ x'.created_at = x.created_at ∧
  (x.id ≠ id → x' = x) ∧ (x.id = id → x'.column = dest)

/-- Frame condition of the optimistic status update on obligations. -/
def obligationFrame (id : Nat) (ns : OStatus) (x x' : Obligation) : Prop :=
  x'.id = x.id ∧ x'.owner_user_id = x.owner_user_id ∧ x'.title = x.title ∧
  x'.description = x.description ∧ x'.due_date = x.due_date ∧
  x'.contact_id = x.contact_id ∧ x'.created_at = x.created_at ∧
  (x.id ≠ id → x' = x) ∧ (x.id = id → x'.status = ns)

/-- Frame condition of the optimistic is_real update on contacts. -/
def contactFrame (id : Nat) (cur : Bool) (x x' : Contact) : Prop :=
  x'.id = x.id ∧ x'.owner_user_id = x.owner_user_id ∧ x'.name = x.name ∧
  x'.phone = x.phone ∧ x'.email = x.email ∧ x'.stage = x.stage ∧
  x'.heat = x.heat ∧ x'.await_status = x.await_status ∧ x'.notes = x.notes ∧
  x'.created_at = x.created_at ∧ x'.updated_at = x.updated_at ∧
  (x.id ≠ id → x' = x) ∧ (x.id = id → x'.is_real = !cur)

/-- Bundled frame property of the Kanban optimistic move: length preserved,
pointwise frame relation in order, and at most one matching identity. -/
def dealFrameOk (items : List Deal) (id : Nat) (dest : Column) : Prop :=
  (moveOptimistic items id dest).length = items.length ∧
  List.Forall₂ (dealFrame id dest) items (moveOptimistic items id dest) ∧
  items.countP (fun x => x.id == id) ≤ 1

/-- Bundled frame property of the Calendar optimistic status toggle. -/
def obligationFrameOk (rows : List Obligation) (id : Nat) (ns : OStatus) : Prop :=
  (toggleDoneOptimistic rows id ns).length = rows.length ∧
  List.Forall₂ (obligationFrame id ns) rows (toggleDoneOptimistic rows id ns) ∧
  rows.countP (fun x => x.id == id) ≤ 1

/-- Bundled frame property of the Contacts optimistic is_real toggle. -/
def contactFrameOk (rows : List Contact) (id : Nat) (cur : Bool) : Prop :=
  (toggleRealOptimistic rows id cur).length = rows.length ∧
  List.Forall₂ (contactFrame id cur) rows (toggleRealOptimistic rows id cur) ∧
  rows.countP (fun x => x.id == id) ≤ 1

/-! ### Concrete sample records (used by scenarios and witnesses) -/

/-- Sample deal with identity 7, sitting in the `novo` column. -/
def deal7 : Deal :=
  { id := 7, contact_id := 0, title := "Proposta A", value := 100,
    column := Column.novo, priority := "normal" }

/-- Sample deal with identity 8. -/
def deal8 : Deal :=
  { id := 8, contact_id := 0, title := "Proposta B", value := 200,
    column := Column.proposta, priority := "alta" }

/-- Server-created deal with identity 42, as in Scenario C of the spec. -/
def deal42 : Deal :=
  { id := 42, contact_id := 0, title := "Novo negócio", value := 0,
    column := Column.novo, priority := "normal", tags := Option.some [] }

/-- Sample contact with identity 1. -/
def contact1 : Contact :=
  { id := 1, name := "Maria", stage := Stage.lead, heat := Heat.warm,
    await_status := AwaitStatus.none, is_real := true }

/-- Open obligation with identity 1, due 2024-01-01T09:00. -/
def ob1 : Obligation :=
  { id := 1, title := "Ligar cliente", due_date := "2024-01-01T09:00",
    status := OStatus.open }

/-- Open obligation with identity 2, due 2024-01-02T09:00. -/
def ob2 : Obligation :=
  { id := 2, title := "Enviar proposta", due_date := "2024-01-02T09:00",
    status := OStatus.open }

/-- Concrete date valuation for the Scenario B strings: day one maps to 1,
day two to 2, anything else to 0 (so a current time of 3 is after both). -/
def demoDateVal (s : String) : Int :=
  if s == "2024-01-01T09:00" then 1 else if s == "2024-01-02T09:00" then 2 else 0

/-- Concrete non-2xx response with a readable non-empty body. -/
def resp404 : HttpResponse Nat :=
  { status := 404, bodyText := Option.some "Not found", jsonBody := Option.none }

/-- Concrete 2xx response whose JSON body parses to 5. -/
def resp200 : HttpResponse Nat :=
  { status := 200, bodyText := Option.some "", jsonBody := Option.some 5 }

/-! ## Theorems -/

/-- Auxiliary: on a rejected list call, `refreshWith` keeps the previous
collection, clears the loading flag, and sets a non-empty banner message. -/
theorem refreshWith_reject {α : Type} (fallback : String) (items : List α)
    (error : Option String) (e : Option String) (hfb : fallback ≠ "") :
    (refreshWith fallback items error (Except.error e)).fst = items ∧
    (refreshWith fallback items error (Except.error e)).snd.fst = false ∧
    ∃ s, (refreshWith fallback items error (Except.error e)).snd.snd =
        Option.some s ∧ s ≠ "" := by
  refine ⟨rfl, rfl, if (e.getD "") == "" then fallback else e.getD "", rfl, ?_⟩
  by_cases h : e.getD "" = ""
  · simpa [h] using hfb
  · simp [h]

/-- Claim C1: for every local collection and every optimistic mutation (deal
column move, obligation status toggle, contact is_real toggle, or entity
removal), if the remote call rejects, the collection after the catch-branch
rollback is exactly the snapshot captured immediately before the optimistic
change was applied (here: the pre-call collection). -/
theorem claim_C1_rollback_restores_snapshot :
    (∀ (items : List Deal) (d : Deal) (dest : Column),
        (move items d dest false).fst = items) ∧
    (∀ (rows : List Obligation) (o : Obligation),
        (toggleDone rows o false).fst = rows) ∧
    (∀ (rows : List Contact) (i : Nat) (current : Bool),
        (toggleReal rows i current false).fst = rows) ∧
    (∀ (items : List Deal) (i : Nat) (confirmed : Bool),
        (removeDeal items i confirmed false).fst = items) ∧
    (∀ (rows : List Contact) (i : Nat) (confirmed : Bool),
        (removeContact rows i confirmed false).fst = rows) ∧
    (∀ (rows : List Obligation) (i : Nat) (confirmed : Bool),
        (removeObligation rows i confirmed false).fst = rows) := by
  refine ⟨?_, ?_, ?_, ?_, ?_, ?_⟩ <;> intros <;>
    simp only [move, toggleDone, toggleReal, removeDeal, removeContact,
      removeObligation, Bool.false_eq_true, if_false] <;>
    split <;> rfl

/-- Claim C3: `remove(id)` optimistically filters out exactly the entities
whose identity equals `id`; on a resolved delete the final collection is the
filtered one (a sublist, so all survivors keep their original order), on a
rejected delete it is the original collection; in particular removing id 7
from the two-element sample behaves as Scenario D describes. -/
theorem claim_C3_remove_semantics :
    (∀ (items : List Deal) (i : Nat),
        (removeDeal items i true true).fst = items.filter (fun x => x.id != i) ∧
        (∀ x, x ∈ (removeDeal items i true true).fst ↔ x ∈ items ∧ x.id ≠ i) ∧
        ((removeDeal items i true true).fst).Sublist items ∧
        (removeDeal items i true false).fst = items) ∧
    (∀ (rows : List Contact) (i : Nat),
        (removeContact rows i true true).fst = rows.filter (fun x => x.id != i) ∧
        (∀ x, x ∈ (removeContact rows i true true).fst ↔ x ∈ rows ∧ x.id ≠ i) ∧
        ((removeContact rows i true true).fst).Sublist rows ∧
        (removeContact rows i true false).fst = rows) ∧
    (∀ (rows : List Obligation) (i : Nat),
        (removeObligation rows i true true).fst = rows.filter (fun x => x.id != i) ∧
        (∀ x, x ∈ (removeObligation rows i true true).fst ↔ x ∈ rows ∧ x.id ≠ i) ∧
        ((removeObligation rows i true true).fst).Sublist rows ∧
        (removeObligation rows i true false).fst = rows) ∧
    (removeDeal [deal7, deal8] 7 true true).fst = [deal8] ∧
    (removeDeal [deal7, deal8] 7 true false).fst = [deal7, deal8] := by
  refine ⟨?_, ?_, ?_, by decide, by decide⟩ <;> intro rows i <;>
    refine ⟨rfl, ?_, ?_, rfl⟩ <;>
    simp [removeDeal, removeContact, removeObligation, List.mem_filter,
      List.filter_sublist]

/-- Claim C10: moving a deal onto the column it already occupies is a
no-op: the collection is unchanged and no remote request is issued. -/
theorem claim_C10_move_same_column_noop (items : List Deal) (d : Deal)
    (dest : Column) (remoteOk : Bool) (h : d.column = dest) :
    move items d dest remoteOk = (items, false) := by
  simp [move, h]

/-- Witness for claim C10 at a concrete deal already in its target column. -/
theorem claim_C10_witness :
    deal7.column = Column.novo ∧
    move [deal7, deal8] deal7 Column.novo true = ([deal7, deal8], false) :=
  ⟨rfl, claim_C10_move_same_column_noop [deal7, deal8] deal7 Column.novo true rfl⟩

/-- Claim C9 counterexample: when local storage holds no token, the header
object built by the HTTP helper for a plain list call carries no
Authorization entry at all, so not every call includes a bearer header. -/
theorem claim_C9_counterexample :
    headerValue (buildHeaders Option.none []) "Authorization" = Option.none := by
  rfl

/-- Claim C9 amended: whenever a truthy (non-empty) bearer token is stored
in local storage, every request built by the HTTP helper (all crm.ts
operations call it with no extra headers) carries the Authorization header
with that bearer token; with no stored token, or a stored empty-string
token, no Authorization header is attached at all. -/
theorem claim_C9_bearer_header_iff_token (t : String) (ht : t ≠ "") :
    headerValue (buildHeaders (Option.some t) []) "Authorization" =
      Option.some ("Bearer " ++ t) ∧
    headerValue (buildHeaders Option.none []) "Authorization" = Option.none ∧
    headerValue (buildHeaders (Option.some "") []) "Authorization" =
      Option.none := by
  refine ⟨?_, rfl, rfl⟩
  have hb : (t == "") = false := beq_eq_false_iff_ne.mpr ht
  simp [headerValue, buildHeaders, authHeaders, hb, List.find?]

/-- Witness for the amended claim C9 at a concrete non-empty token. -/
theorem claim_C9_witness :
    "tok123" ≠ "" ∧
    (headerValue (buildHeaders (Option.some "tok123") []) "Authorization" =
        Option.some ("Bearer " ++ "tok123") ∧
      headerValue (buildHeaders Option.none []) "Authorization" = Option.none ∧
      headerValue (buildHeaders (Option.some "") []) "Authorization" =
        Option.none) :=
  ⟨by decide, claim_C9_bearer_header_iff_token "tok123" (by decide)⟩

/-- Claim C8: each page's `refresh` replaces the collection wholesale and
clears the loading flag when the fetch resolves; when it rejects it keeps
the previous collection untouched, clears the loading flag, and sets a
non-empty user-visible error message. -/
theorem claim_C8_load_semantics (items : List Deal) (rows : List Contact)
    (obls : List Obligation) (err errC errO : Option String) (ds : List Deal)
    (cs : List Contact) (os : List Obligation) (e eC eO : Option String) :
    refreshDeals items err (Except.ok ds) = (ds, false, err) ∧
    refreshContacts rows errC (Except.ok cs) = (cs, false, errC) ∧
    refreshObligations obls errO (Except.ok os) = (os, false, errO) ∧
    ((refreshDeals items err (Except.error e)).fst = items ∧
      (refreshDeals items err (Except.error e)).snd.fst = false ∧
      ∃ s, (refreshDeals items err (Except.error e)).snd.snd = Option.some s ∧
        s ≠ "") ∧
    ((refreshContacts rows errC (Except.error eC)).fst = rows ∧
      (refreshContacts rows errC (Except.error eC)).snd.fst = false ∧
      ∃ s, (refreshContacts rows errC (Except.error eC)).snd.snd = Option.some s ∧
        s ≠ "") ∧
    ((refreshObligations obls errO (Except.error eO)).fst = obls ∧
      (refreshObligations obls errO (Except.error eO)).snd.fst = false ∧
      ∃ s, (refreshObligations obls errO (Except.error eO)).snd.snd =
          Option.some s ∧ s ≠ "") :=
  ⟨rfl, rfl, rfl,
    refreshWith_reject _ items err e (by decide),
    refreshWith_reject _ rows errC eC (by decide),
    refreshWith_reject _ obls errO eO (by decide)⟩

/-- Claim C5: `quickAdd` performs no optimistic insertion: the collection is
untouched unless the remote create resolves, in which case the
server-returned entity is prepended ahead of the prior elements in their
original order; a rejection leaves the collection unchanged and propagates
unhandled (second component). -/
theorem claim_C5_create_prepends (items : List Deal) (rows : List Contact)
    (t n : String) (novo : Deal) (newC : Contact) (eD eC : Unit)
    (respD : Except Unit Deal) (respC : Except Unit Contact)
    (ht : t ≠ "") (hn : n ≠ "") :
    quickAddDeal items (Option.some t) (Except.ok novo) = (novo :: items, false) ∧
    quickAddDeal items (Option.some t) (Except.error eD) = (items, true) ∧
    quickAddDeal items Option.none respD = (items, false) ∧
    quickAddContact rows (Option.some n) (Except.ok newC) = (newC :: rows, false) ∧
    quickAddContact rows (Option.some n) (Except.error eC) = (rows, true) ∧
    quickAddContact rows Option.none respC = (rows, false) := by
  refine ⟨?_, ?_, rfl, ?_, ?_, rfl⟩ <;> simp [quickAddDeal, quickAddContact, ht, hn]

/-- Witness for claim C5: a create answered by the server with identity 42
prepends that entity, so the first element's id is 42. -/
theorem claim_C5_witness :
    "Novo negócio" ≠ "" ∧ "Maria" ≠ "" ∧
    (quickAddDeal [deal7] (Option.some "Novo negócio") (Except.ok deal42) =
        (deal42 :: [deal7], false) ∧
      quickAddDeal [deal7] (Option.some "Novo negócio") (Except.error ()) =
        ([deal7], true) ∧
      quickAddDeal [deal7] Option.none (Except.ok deal42) = ([deal7], false) ∧
      quickAddContact [] (Option.some "Maria") (Except.ok contact1) =
        (contact1 :: [], false) ∧
      quickAddContact [] (Option.some "Maria") (Except.error ()) = ([], true) ∧
      quickAddContact [] Option.none (Except.ok contact1) = ([], false)) ∧
    (deal42 :: [deal7]).head?.map Deal.id = Option.some 42 :=
  ⟨by decide, by decide,
    claim_C5_create_prepends [deal7] [] "Novo negócio" "Maria" deal42 contact1
      () () (Except.ok deal42) (Except.ok contact1) (by decide) (by decide),
    rfl⟩

/-- Claim C7: for any response with a non-2xx status the HTTP helper rejects
(never resolves): with the response body text as message when that text is
non-empty, and with the generic HTTP-status message when the body is empty
or unreadable; a 2xx response resolves with the parsed JSON body. -/
theorem claim_C7_http_response_semantics (α : Type) (r : HttpResponse α)
    (v : α) (txt : String) :
    (¬(200 ≤ r.status ∧ r.status ≤ 299) → r.bodyText = Option.some txt →
        txt ≠ "" → http r = Except.error (HttpFailure.errMsg txt)) ∧
    (¬(200 ≤ r.status ∧ r.status ≤ 299) →
        (r.bodyText = Option.some "" ∨ r.bodyText = Option.none) →
        http r = Except.error (HttpFailure.errMsg ("HTTP " ++ toString r.status))) ∧
    (¬(200 ≤ r.status ∧ r.status ≤ 299) → ∀ w, http r ≠ Except.ok w) ∧
    ((200 ≤ r.status ∧ r.status ≤ 299) → r.jsonBody = Option.some v →
        http r = Except.ok v) := by
  refine ⟨?_, ?_, ?_, ?_⟩
  · intro h hb hne
    simp [http, resOk, h, hb, hne]
  · intro h hb
    rcases hb with hb | hb <;> simp [http, resOk, h, hb]
  · intro h w
    simp [http, resOk, h]
  · intro h hj
    simp [http, resOk, h, hj]

/-- Witness for claim C7: a 404 with body text rejects with that text, and a
200 with a parsed body resolves with it. -/
theorem claim_C7_witness :
    (¬(200 ≤ 404 ∧ 404 ≤ 299) ∧
      http resp404 = Except.error (HttpFailure.errMsg "Not found")) ∧
    ((200 ≤ 200 ∧ 200 ≤ 299) ∧ http resp200 = Except.ok 5) :=
  ⟨⟨by decide,
      (claim_C7_http_response_semantics Nat resp404 0 "Not found").1
        (by decide) rfl (by decide)⟩,
    ⟨by decide,
      (claim_C7_http_response_semantics Nat resp200 5 "").2.2.2 (by decide) rfl⟩⟩

/-- Auxiliary: the Kanban filter loop, started from any accumulator map,
appends to each column exactly the kept deals of that column, in order. -/
theorem foldl_colPush_spec (q : String) :
    ∀ (items : List Deal) (m : Column → List Deal) (c : Column),
      (items.foldl (fun m d => if keepDeal q d then colPush m d.column d else m) m) c =
        m c ++ items.filter (fun d => keepDeal q d && d.column == c) := by
  intro items
  induction items with
  | nil => intro m c; simp
  | cons d tl ih =>
    intro m c
    simp only [List.foldl_cons, List.filter_cons]
    by_cases hk : keepDeal q d
    · rw [if_pos hk, ih]
      by_cases hc : d.column = c
      · simp [colPush, hk, hc]
      · have hc' : ¬(c = d.column) := fun h => hc h.symm
        simp [colPush, hk, hc, hc']
    · rw [if_neg hk, ih]
      simp [hk]

/-- Auxiliary: per-column characterisation of Kanban.tsx `filteredByCol`. -/
theorem filteredByCol_spec (q : String) (items : List Deal) (c : Column) :
    filteredByCol q items c =
      items.filter (fun d => keepDeal q d && d.column == c) := by
  simpa using foldl_colPush_spec q items (fun _ => []) c

/-- Claim C2: with all non-text filters at their defaults, each page's search
projection contains exactly the elements of the source collection whose
designated searchable text (lower-cased) contains the trimmed lower-cased
query as a substring, the empty normalised query matching everything; the
projections are pure functions of the source collection. -/
theorem claim_C2_search_projection :
    (∀ (q : String) (rows : List Contact) (c : Contact),
        c ∈ contactsFiltered q Option.none Option.none Option.none false rows ↔
          c ∈ rows ∧
            (normQuery q = "" ∨ (normQuery q).data <:+: (contactHay c).toLower.data)) ∧
    (∀ (q : String) (items : List Deal) (col : Column) (d : Deal),
        d ∈ filteredByCol q items col ↔
          d ∈ items ∧ d.column = col ∧
            (normQuery q = "" ∨ (normQuery q).data <:+: (dealHay d).toLower.data)) ∧
    (∀ (q : String) (rows : List Obligation) (o : Obligation),
        o ∈ obligationsFiltered q rows ↔
          o ∈ rows ∧
            (normQuery q = "" ∨ (normQuery q).data <:+: (obligationHay o).toLower.data)) := by
  refine ⟨?_, ?_, ?_⟩
  · intro q rows c
    simp [contactsFiltered, keepContact, List.mem_filter, jsIncludes,
      Bool.or_eq_true, beq_iff_eq, decide_eq_true_iff]
  · intro q items col d
    rw [filteredByCol_spec]
    simp only [List.mem_filter, Bool.and_eq_true, Bool.or_eq_true, keepDeal,
      jsIncludes, beq_iff_eq, decide_eq_true_iff]
    tauto
  · intro q rows o
    simp [obligationsFiltered, keepObligation, List.mem_filter, jsIncludes,
      Bool.or_eq_true, beq_iff_eq, decide_eq_true_iff]

/-- Auxiliary: the due-date comparator is transitive. -/
theorem dueLe_trans (dateVal : String → Int) (a b c : Obligation)
    (hab : dueLe dateVal a b = true) (hbc : dueLe dateVal b c = true) :
    dueLe dateVal a c = true := by
  simp only [dueLe, decide_eq_true_iff] at *
  exact le_trans hab hbc

/-- Auxiliary: the due-date comparator is total. -/
theorem dueLe_total (dateVal : String → Int) (a b : Obligation) :
    (dueLe dateVal a b || dueLe dateVal b a) = true := by
  simp only [dueLe, Bool.or_eq_true, decide_eq_true_iff]
  exact le_total _ _

/-- Claim C4: over any obligation list and current time, the rendered
overdue bucket holds exactly the open obligations strictly past due, the
upcoming bucket the open ones due at or after now, the done bucket the done
ones, and each rendered bucket is ordered ascending by due timestamp; the
Scenario B instance places id 1 before id 2 in the overdue bucket. -/
theorem claim_C4_calendar_buckets (dateVal : String → Int) (now : Int)
    (fil : List Obligation) :
    (∀ o, o ∈ sectionOrder dateVal (overdue dateVal now fil) ↔
        o ∈ fil ∧ o.status = OStatus.open ∧ dateVal o.due_date < now) ∧
    (∀ o, o ∈ sectionOrder dateVal (upcoming dateVal now fil) ↔
        o ∈ fil ∧ o.status = OStatus.open ∧ now ≤ dateVal o.due_date) ∧
    (∀ o, o ∈ sectionOrder dateVal (doneBucket fil) ↔
        o ∈ fil ∧ o.status = OStatus.done) ∧
    List.Pairwise (fun a b => dateVal a.due_date ≤ dateVal b.due_date)
      (sectionOrder dateVal (overdue dateVal now fil)) ∧
    List.Pairwise (fun a b => dateVal a.due_date ≤ dateVal b.due_date)
      (sectionOrder dateVal (upcoming dateVal now fil)) ∧
    List.Pairwise (fun a b => dateVal a.due_date ≤ dateVal b.due_date)
      (sectionOrder dateVal (doneBucket fil)) ∧
    sectionOrder demoDateVal (overdue demoDateVal 3 [ob1, ob2]) = [ob1, ob2] := by
  have hsort : ∀ l : List Obligation,
      List.Pairwise (fun a b => dateVal a.due_date ≤ dateVal b.due_date)
        (sectionOrder dateVal l) := by
    intro l
    have h := List.sorted_mergeSort (dueLe_trans dateVal) (dueLe_total dateVal) l
    exact h.imp (fun hab => by simpa [dueLe] using hab)
  refine ⟨?_, ?_, ?_, hsort _, hsort _, hsort _, ?_⟩
  · intro o
    simp [sectionOrder, List.mem_mergeSort, overdue, List.mem_filter,
      Bool.and_eq_true, beq_iff_eq, decide_eq_true_iff]
  · intro o
    simp [sectionOrder, List.mem_mergeSort, upcoming, List.mem_filter,
      Bool.and_eq_true, beq_iff_eq, decide_eq_true_iff]
  · intro o
    simp [sectionOrder, doneBucket, List.mem_mergeSort, List.mem_filter,
      beq_iff_eq]
  · have hov : overdue demoDateVal 3 [ob1, ob2] = [ob1, ob2] := by decide
    rw [hov]
    simp [sectionOrder, List.mergeSort, dueLe, ob1, ob2, demoDateVal]

/-- Claim C6: under pairwise-distinct identities, each optimistic field
update (deal column, obligation status, contact is_real) changes only the
designated field of the single entity with the given identity: length and
order are preserved, every other entity is untouched, every other field of
the target is untouched, and at most one entity matches the identity. -/
theorem claim_C6_optimistic_frame (deals : List Deal) (did : Nat)
    (dest : Column) (obls : List Obligation) (oid : Nat) (ns : OStatus)
    (cts : List Contact) (cid : Nat) (cur : Bool)
    (hd : (deals.map Deal.id).Nodup) (ho : (obls.map Obligation.id).Nodup)
    (hc : (cts.map Contact.id).Nodup) :
    dealFrameOk deals did dest ∧ obligationFrameOk obls oid ns ∧
    contactFrameOk cts cid cur := by
  refine ⟨⟨by simp [moveOptimistic], ?_, ?_⟩,
    ⟨by simp [toggleDoneOptimistic], ?_, ?_⟩,
    ⟨by simp [toggleRealOptimistic], ?_, ?_⟩⟩
  · simp only [moveOptimistic]
    rw [List.forall₂_map_right_iff, List.forall₂_same]
    intro x _
    by_cases h : x.id = did
    · have hb : (x.id == did) = true := beq_iff_eq.mpr h
      simp only [hb, if_true]
      exact ⟨rfl, rfl, rfl, rfl, rfl, rfl, rfl, rfl,
        fun hne => absurd h hne, fun _ => rfl⟩
    · have hb : (x.id == did) = false := beq_eq_false_iff_ne.mpr h
      simp only [hb, Bool.false_eq_true, if_false]
      exact ⟨rfl, rfl, rfl, rfl, rfl, rfl, rfl, rfl,
        fun _ => rfl, fun he => absurd he h⟩
  · have h1 := List.nodup_iff_count_le_one.mp hd did
    simpa [List.count_eq_countP, List.countP_map, Function.comp] using h1
  · simp only [toggleDoneOptimistic]
    rw [List.forall₂_map_right_iff, List.forall₂_same]
    intro x _
    by_cases h : x.id = oid
    · have hb : (x.id == oid) = true := beq_iff_eq.mpr h
      simp only [hb, if_true]
      exact ⟨rfl, rfl, rfl, rfl, rfl, rfl, rfl,
        fun hne => absurd h hne, fun _ => rfl⟩
    · have hb : (x.id == oid) = false := beq_eq_false_iff_ne.mpr h
      simp only [hb, Bool.false_eq_true, if_false]
      exact ⟨rfl, rfl, rfl, rfl, rfl, rfl, rfl,
        fun _ => rfl, fun he => absurd he h⟩
  · have h1 := List.nodup_iff_count_le_one.mp ho oid
    simpa [List.count_eq_countP, List.countP_map, Function.comp] using h1
  · simp only [toggleRealOptimistic]
    rw [List.forall₂_map_right_iff, List.forall₂_same]
    intro x _
    by_cases h : x.id = cid
    · have hb : (x.id == cid) = true := beq_iff_eq.mpr h
      simp only [hb, if_true]
      exact ⟨rfl, rfl, rfl, rfl, rfl, rfl, rfl, rfl, rfl, rfl, rfl,
        fun hne => absurd h hne, fun _ => rfl⟩
    · have hb : (x.id == cid) = false := beq_eq_false_iff_ne.mpr h
      simp only [hb, Bool.false_eq_true, if_false]
      exact ⟨rfl, rfl, rfl, rfl, rfl, rfl, rfl, rfl, rfl, rfl, rfl,
        fun _ => rfl, fun he => absurd he h⟩
  · have h1 := List.nodup_iff_count_le_one.mp hc cid
    simpa [List.count_eq_countP, List.countP_map, Function.comp] using h1

/-- Witness for claim C6 on concrete two-element collections with distinct
identities. -/
theorem claim_C6_witness :
    ([deal7, deal8].map Deal.id).Nodup ∧ ([ob1, ob2].map Obligation.id).Nodup ∧
    ([contact1].map Contact.id).Nodup ∧
    (dealFrameOk [deal7, deal8] 7 Column.ganho ∧
      obligationFrameOk [ob1, ob2] 1 OStatus.done ∧
      contactFrameOk [contact1] 1 false) :=
  ⟨by decide, by decide, by decide,
    claim_C6_optimistic_frame [deal7, deal8] 7 Column.ganho [ob1, ob2] 1
      OStatus.done [contact1] 1 false (by decide) (by decide) (by decide)⟩

end CRM
